import Mathlib

/-!
Verification development for the sqliteviewer generic data-access layer
(`internal/server/server.go`, `internal/server/export.go`).

The Go code is shallowly embedded: SQL-building and SQL-executing handlers
become Lean functions over an explicit database state (`DB`), driver values
become the `GoValue` variant, and the behaviour of the SQLite engine on the
specific statement shapes the code emits is modelled directly (parameterized
WHERE `rowid = ?` matching, LIMIT/OFFSET as drop/take, SQLite's
double-quoted-string fallback for unknown identifiers in expression
position, and its stable treatment of constant sort keys).
-/

/-- Driver-native values as delivered by `database/sql` scans: NULL, int64,
TEXT, BLOB (`[]byte`, carried as its byte string) and bool. The code's
`formatSQLValue` additionally handles floats; no claim concerns them and
they are omitted from the variant. -/
inductive GoValue where
  | null
  | int (n : Int)
  | text (s : String)
  | blob (s : String)
  | bool (b : Bool)
  deriving DecidableEq, Repr

/-- Model of `normalizeValue` (server.go): collapse `[]byte` into `string`, keep
everything else unchanged. -/
def normalizeValue : GoValue → GoValue
  | .blob s => .text s
  | v => v

/-- Character predicate of `IsSafeIdentifier`'s rune loop (server.go line 424). -/
def isSafeChar (c : Char) : Bool :=
  c = '_' || c = '.' || ('0' ≤ c && c ≤ '9') || ('A' ≤ c && c ≤ 'Z') || ('a' ≤ c && c ≤ 'z')

/-- Model of `IsSafeIdentifier` (server.go lines 419-429): reject the empty string,
then reject on the first rune outside `[A-Za-z0-9_.]`. -/
def IsSafeIdentifier (name : String) : Bool :=
  if name = "" then false else name.data.all isSafeChar

/-- Single-character `strings.ReplaceAll`: every occurrence of `c` is
replaced by `rep`. For a one-character pattern Go's ReplaceAll is exactly
this character-wise substitution. -/
def replaceAllChar (c : Char) (rep : List Char) : List Char → List Char
  | [] => []
  | x :: xs => if x = c then rep ++ replaceAllChar c rep xs else x :: replaceAllChar c rep xs

/-- Go `strings.ReplaceAll(s, string(c), rep)` for a one-character pattern. -/
def goReplaceAll1 (s : String) (c : Char) (rep : String) : String :=
  ⟨replaceAllChar c rep.data s.data⟩

def dquoteChar : Char := Char.ofNat 34

def dquote : String := "\""

def squoteChar : Char := Char.ofNat 39

def squote : String := String.singleton squoteChar

/-- Model of `QuoteIdentifier` (server.go lines 415-417): wrap in double quotes,
doubling any embedded double quote. -/
def QuoteIdentifier (name : String) : String :=
  dquote ++ goReplaceAll1 name dquoteChar (dquote ++ dquote) ++ dquote

/-- Decimal digit value, `none` for a non-digit rune. -/
def digitVal (c : Char) : Option Nat :=
  if '0' ≤ c && c ≤ '9' then some (c.toNat - 48) else none

/-- Accumulate a decimal number, failing on the first non-digit. -/
def parseDigitsAux (acc : Nat) : List Char → Option Nat
  | [] => some acc
  | c :: cs =>
    match digitVal c with
    | some d => parseDigitsAux (acc * 10 + d) cs
    | none => none

def int64Min : Int := -9223372036854775808

def int64Max : Int := 9223372036854775807

/-- Go `strconv.ParseInt(s, 10, 64)`: optional single sign, at least one
digit, digits only, result within the int64 range; `none` models a non-nil
error. -/
def parseGoInt64 (s : String) : Option Int :=
  match s.data with
  | [] => none
  | c :: cs =>
    let signed : Bool × List Char :=
      if c = '-' then (true, cs) else if c = '+' then (false, cs) else (false, c :: cs)
    match signed.2 with
    | [] => none
    | ds =>
      match parseDigitsAux 0 ds with
      | none => none
      | some n =>
        let v : Int := if signed.1 then -(n : Int) else (n : Int)
        if v < int64Min ∨ int64Max < v then none else some v

example : parseGoInt64 "42" = some 42 := by decide
example : parseGoInt64 "-3" = some (-3) := by decide
example : parseGoInt64 "" = none := by decide
example : parseGoInt64 "1x" = none := by decide
example : parseGoInt64 "+" = none := by decide
example : IsSafeIdentifier "users_2.name" = true := by decide
example : IsSafeIdentifier "users;drop" = false := by decide
example : QuoteIdentifier "ab" = "\"ab\"" := by decide

/-- Whitespace as `unicode.IsSpace` recognises it (the Latin-1 range). -/
def goIsSpace (c : Char) : Bool :=
  c = ' ' || c = '\t' || c = '\n' || c = Char.ofNat 11 || c = Char.ofNat 12 ||
    c = '\r' || c = Char.ofNat 133 || c = Char.ofNat 160

/-- Go `strings.TrimSpace`: drop whitespace from both ends. -/
def goTrim (s : String) : String :=
  ⟨((s.data.dropWhile goIsSpace).reverse.dropWhile goIsSpace).reverse⟩

/-- ASCII uppercase map (Go's `strings.ToUpper` restricted to the ASCII
runes that matter for the SELECT/WITH prefix test and for identifier
comparison). -/
def asciiUpper (c : Char) : Char :=
  if 'a' ≤ c && c ≤ 'z' then Char.ofNat (c.toNat - 32) else c

/-- Go `strings.ToUpper` on the modelled rune range. -/
def goToUpper (s : String) : String :=
  ⟨s.data.map asciiUpper⟩

/-- Go `strings.HasPrefix`. -/
def goHasPrefix (s p : String) : Bool :=
  s.data.take p.data.length = p.data

/-- One stored row: the engine-assigned rowid plus the column values in
declaration order. -/
structure Row where
  rowid : Int
  vals : List GoValue
  deriving DecidableEq, Repr

/-- One table: its CREATE statement text (as held in sqlite_master), its
column names in declaration order, and its rows in storage order (the
order an unordered full scan returns). -/
structure Table where
  schema : String
  cols : List String
  rows : List Row
  deriving DecidableEq, Repr

/-- The database: named tables. -/
abbrev DB := List (String × Table)

def lookupTable (db : DB) (name : String) : Option Table :=
  match db with
  | [] => none
  | (n, t) :: rest => if n = name then some t else lookupTable rest name

/-- Replace the first table bound to `name` (the one every statement
resolves). -/
def storeTable : DB → String → Table → DB
  | [], _, _ => []
  | (n, t0) :: rest, name, t =>
    if n = name then (n, t) :: rest else (n, t0) :: storeTable rest name t

/-- Bounded lexicographic order on rune lists. -/
def charListLe : List Char → List Char → Bool
  | [], _ => true
  | _ :: _, [] => false
  | a :: as, b :: bs => if a < b then true else if b < a then false else charListLe as bs

/-- SQLite type rank: NULL < numeric < TEXT < BLOB. -/
def valRank : GoValue → Nat
  | .null => 0
  | .int _ => 1
  | .bool _ => 1
  | .text _ => 2
  | .blob _ => 3

def numVal : GoValue → Int
  | .int n => n
  | .bool b => if b then 1 else 0
  | _ => 0

/-- SQLite comparison used by ORDER BY, restricted to the modelled values. -/
def valLe (a b : GoValue) : Bool :=
  if valRank a < valRank b then true
  else if valRank b < valRank a then false
  else
    match a, b with
    | .text s, .text t => charListLe s.data t.data
    | .blob s, .blob t => charListLe s.data t.data
    | x, y => numVal x ≤ numVal y

/-- Insert before the first element not below `x`: the step of a stable
insertion sort (equal keys keep their original relative order). -/
def insertSorted (le : α → α → Bool) (x : α) : List α → List α
  | [] => [x]
  | y :: ys => if le x y then x :: y :: ys else y :: insertSorted le x ys

/-- Stable sort, modelling the engine's ORDER BY on the scanned rows. -/
def sortByB (le : α → α → Bool) : List α → List α
  | [] => []
  | x :: xs => insertSorted le x (sortByB le xs)

/-- How SQLite resolves the double-quoted name in `ORDER BY "name"`:
a column of the table (ASCII-case-insensitively), else one of the implicit
rowid names (here also the SELECT alias `_rowid`), else — by the
double-quoted-string compatibility fallback — a plain string constant. -/
inductive SortKey where
  | byRowid
  | byCol (i : Nat)
  | constant (s : String)
  deriving DecidableEq, Repr

def resolveOrderBy (cols : List String) (name : String) : SortKey :=
  let u := goToUpper name
  match cols.findIdx? (fun c => goToUpper c = u) with
  | some i => .byCol i
  | none =>
    if u = "_ROWID" ∨ u = "ROWID" ∨ u = "_ROWID_" ∨ u = "OID" then .byRowid
    else .constant name

def sortKeyVal (key : SortKey) (r : Row) : GoValue :=
  match key with
  | .byRowid => .int r.rowid
  | .byCol i => r.vals.getD i .null
  | .constant s => .text s

/-- Apply `ORDER BY <orderBy> <dir>` to the scanned rows. -/
def applySort (cols : List String) (orderBy dir : String) (rows : List Row) : List Row :=
  let key := resolveOrderBy cols orderBy
  let le : Row → Row → Bool :=
    if dir = "DESC" then fun a b => valLe (sortKeyVal key b) (sortKeyVal key a)
    else fun a b => valLe (sortKeyVal key a) (sortKeyVal key b)
  sortByB le rows

/-- Byte-string containment, for the `%term%` pattern. -/
def listInfix (p : List Char) : List Char → Bool
  | [] => p = []
  | c :: cs => (p = List.take p.length (c :: cs)) || listInfix p cs

/-- Text rendering SQLite applies when a non-text value meets LIKE. -/
def likeTextOf : GoValue → Option String
  | .null => none
  | .int n => some (toString n)
  | .text s => some s
  | .blob s => some s
  | .bool b => some (if b then "1" else "0")

/-- Condition `col LIKE ?` bound with `%term%`: ASCII-case-insensitive containment;
NULL never matches. -/
def likeContains (term : String) (v : GoValue) : Bool :=
  match likeTextOf v with
  | none => false
  | some s => listInfix (goToUpper term).data (goToUpper s).data

/-- The OR of one LIKE condition per table column (server.go lines 109-128). -/
def rowMatchesSearch (cols : List String) (term : String) (r : Row) : Bool :=
  (List.range cols.length).any (fun i => likeContains term (r.vals.getD i .null))

/-- Response body of GET /tables/:table (server.go lines 191-210). -/
structure TableDataResult where
  columns : List String
  rows : List (List (String × GoValue))
  total : Int
  limit : Int
  offset : Int
  deriving DecidableEq, Repr

/-- Client-visible error classes of the handlers. -/
inductive ApiError where
  | validation (msg : String)
  | notFound (msg : String)
  | storage (msg : String)
  deriving DecidableEq, Repr

/-- One result row as the handler builds it: the selected column names
zipped with the scanned values after `normalizeValue`. -/
def renderDataRow (columns : List String) (r : Row) : List (String × GoValue) :=
  columns.zip ((GoValue.int r.rowid :: r.vals).map normalizeValue)

/-- Base query of the paginated fetch (server.go line 138). -/
def tableDataBaseQuery (table : String) : String :=
  "SELECT rowid as _rowid, * FROM " ++ QuoteIdentifier table

/-- Model of `handleGetTableData` (server.go lines 84-212): validate the table name,
default/clamp limit, offset and direction, filter by the per-column LIKE
search, apply ORDER BY only when the sort column passes `IsSafeIdentifier`,
page with LIMIT/OFFSET, and recount the filtered rows for `total`. -/
def handleGetTableData (db : DB) (table : String) (limitQ offsetQ : Int)
    (search orderBy orderDir : String) : Except ApiError TableDataResult :=
  if IsSafeIdentifier table = false then .error (.validation "invalid table name")
  else
    let limit : Int := if limitQ ≤ 0 then 100 else limitQ
    let offset : Int := if offsetQ < 0 then 0 else offsetQ
    let dir := if orderDir ≠ "ASC" ∧ orderDir ≠ "DESC" then "ASC" else orderDir
    match lookupTable db table with
    | none => .error (.storage "no such table")
    | some t =>
      let filtered :=
        if search ≠ "" ∧ t.cols ≠ [] then t.rows.filter (rowMatchesSearch t.cols search)
        else t.rows
      let sorted :=
        if orderBy ≠ "" ∧ IsSafeIdentifier orderBy then applySort t.cols orderBy dir filtered
        else filtered
      let page := (sorted.drop offset.toNat).take limit.toNat
      let columns := "_rowid" :: t.cols
      .ok { columns := columns
            rows := page.map (renderDataRow columns)
            total := filtered.length
            limit := limit
            offset := offset }

/-- Query text of the export fetch (server.go line 435). -/
def fetchAllRowsQuery (table : String) : String :=
  "SELECT * FROM " ++ QuoteIdentifier table

/-- Model of `fetchAllRows` (server.go lines 431-467): validate, run `SELECT *`
(no rowid alias), and return the result column names plus every row as a
column-to-normalized-value record. -/
def fetchAllRows (db : DB) (table : String) :
    Except String (List String × List (List (String × GoValue))) :=
  if IsSafeIdentifier table = false then .error "invalid table name"
  else
    match lookupTable db table with
    | none => .error "no such table"
    | some t => .ok (t.cols, t.rows.map (fun r => t.cols.zip (r.vals.map normalizeValue)))

/-- Outcome of a mutation handler: the response, the database afterwards,
and the SQL statements that were handed to the engine (empty when
validation aborted before any SQL ran). -/
structure MutationOut where
  result : Except ApiError Int
  db : DB
  execs : List String
  deriving Repr

/-- Case-insensitive column resolution, as SQLite resolves the (ASCII)
identifiers this layer lets through. -/
def colIndex (cols : List String) (name : String) : Option Nat :=
  cols.findIdx? (fun c => goToUpper c = goToUpper name)

/-- Remove every `_rowid` key (Go `delete(payload, "_rowid")`). -/
def stripRowidKey (payload : List (String × GoValue)) : List (String × GoValue) :=
  payload.filter (fun kv => kv.1 ≠ "_rowid")

def joinComma (parts : List String) : String :=
  String.intercalate ", " parts

/-- The UPDATE text built at server.go line 250. -/
def buildUpdateQuery (table : String) (keys : List String) : String :=
  "UPDATE " ++ QuoteIdentifier table ++ " SET "
    ++ joinComma (keys.map (fun k => QuoteIdentifier k ++ " = ?"))
    ++ " WHERE rowid = ?"

/-- The DELETE text built at server.go line 321. -/
def buildDeleteQuery (table : String) : String :=
  "DELETE FROM " ++ QuoteIdentifier table ++ " WHERE rowid = ?"

/-- The INSERT text built at server.go lines 294-298. -/
def buildInsertQuery (table : String) (keys : List String) : String :=
  "INSERT INTO " ++ QuoteIdentifier table
    ++ " (" ++ joinComma (keys.map QuoteIdentifier) ++ ")"
    ++ " VALUES (" ++ joinComma (keys.map (fun _ => "?")) ++ ")"

/-- Overwrite the updated columns of one row. -/
def setRowVals (cols : List String) (updates : List (String × GoValue)) (r : Row) : Row :=
  { r with
    vals := updates.foldl
      (fun vs kv =>
        match colIndex cols kv.1 with
        | some i => vs.set i kv.2
        | none => vs)
      r.vals }

/-- Engine semantics of `UPDATE t SET c1 = ?, ... WHERE rowid = ?`: every
SET target must resolve to a column (the left side of SET is identifier
position, so no string-literal fallback applies); the affected count is the
number of rows whose rowid matches. -/
def sqlUpdate (t : Table) (updates : List (String × GoValue)) (rid : Int) :
    Except String (Table × Int) :=
  if updates.all (fun kv => (colIndex t.cols kv.1).isSome) = false then
    .error "no such column"
  else
    let affected := (t.rows.filter (fun r => r.rowid = rid)).length
    .ok ({ t with rows := t.rows.map (fun r => if r.rowid = rid then setRowVals t.cols updates r else r) },
         affected)

/-- Engine semantics of `DELETE FROM t WHERE rowid = ?`. -/
def sqlDelete (t : Table) (rid : Int) : Table × Int :=
  ({ t with rows := t.rows.filter (fun r => ¬ r.rowid = rid) },
   (t.rows.filter (fun r => r.rowid = rid)).length)

/-- Next automatic rowid: one past the largest in use. -/
def nextRowid (t : Table) : Int :=
  (t.rows.foldl (fun m r => max m r.rowid) 0) + 1

/-- Engine semantics of `INSERT INTO t (c...) VALUES (?...)`: every target
must be a column; unmentioned columns get NULL (constraints are not
modelled). -/
def sqlInsert (t : Table) (payload : List (String × GoValue)) :
    Except String (Table × Int) :=
  if payload.all (fun kv => (colIndex t.cols kv.1).isSome) = false then
    .error "no such column"
  else
    let rid := nextRowid t
    let base : Row := { rowid := rid, vals := t.cols.map (fun _ => GoValue.null) }
    .ok ({ t with rows := t.rows ++ [setRowVals t.cols payload base] }, rid)

/-- Model of `handleUpdateRow` (server.go lines 214-262): validate the table name,
parse the rowid and require it positive, drop any `_rowid` key, reject an
empty remainder, validate every remaining key, then run the UPDATE and
report NotFound when no row was affected. -/
def handleUpdateRow (db : DB) (table rowidStr : String)
    (payload : List (String × GoValue)) : MutationOut :=
  if IsSafeIdentifier table = false then
    ⟨.error (.validation "invalid table name"), db, []⟩
  else
    match parseGoInt64 rowidStr with
    | none => ⟨.error (.validation "invalid rowid"), db, []⟩
    | some rid =>
      if rid ≤ 0 then ⟨.error (.validation "invalid rowid"), db, []⟩
      else
        let p := stripRowidKey payload
        if p = [] then ⟨.error (.validation "no columns to update"), db, []⟩
        else if p.all (fun kv => IsSafeIdentifier kv.1) = false then
          ⟨.error (.validation "invalid column"), db, []⟩
        else
          let q := buildUpdateQuery table (p.map (fun kv => kv.1))
          match lookupTable db table with
          | none => ⟨.error (.storage "no such table"), db, [q]⟩
          | some t =>
            match sqlUpdate t p rid with
            | .error e => ⟨.error (.storage e), db, [q]⟩
            | .ok (t2, affected) =>
              if affected = 0 then
                ⟨.error (.notFound "row not found"), storeTable db table t2, [q]⟩
              else ⟨.ok affected, storeTable db table t2, [q]⟩

/-- Model of `handleDeleteRow` (server.go lines 308-332). -/
def handleDeleteRow (db : DB) (table rowidStr : String) : MutationOut :=
  if IsSafeIdentifier table = false then
    ⟨.error (.validation "invalid table name"), db, []⟩
  else
    match parseGoInt64 rowidStr with
    | none => ⟨.error (.validation "invalid rowid"), db, []⟩
    | some rid =>
      if rid ≤ 0 then ⟨.error (.validation "invalid rowid"), db, []⟩
      else
        let q := buildDeleteQuery table
        match lookupTable db table with
        | none => ⟨.error (.storage "no such table"), db, [q]⟩
        | some t =>
          let (t2, affected) := sqlDelete t rid
          if affected = 0 then
            ⟨.error (.notFound "row not found"), storeTable db table t2, [q]⟩
          else ⟨.ok affected, storeTable db table t2, [q]⟩

/-- Model of `handleInsertRow` (server.go lines 264-306): no rowid is read from the
request; the generated rowid is returned on success. -/
def handleInsertRow (db : DB) (table : String)
    (payload : List (String × GoValue)) : MutationOut :=
  if IsSafeIdentifier table = false then
    ⟨.error (.validation "invalid table name"), db, []⟩
  else if payload = [] then
    ⟨.error (.validation "no columns to insert"), db, []⟩
  else if payload.all (fun kv => IsSafeIdentifier kv.1) = false then
    ⟨.error (.validation "invalid column"), db, []⟩
  else
    let q := buildInsertQuery table (payload.map (fun kv => kv.1))
    match lookupTable db table with
    | none => ⟨.error (.storage "no such table"), db, [q]⟩
    | some t =>
      match sqlInsert t payload with
      | .error e => ⟨.error (.storage e), db, [q]⟩
      | .ok (t2, rid) => ⟨.ok rid, storeTable db table t2, [q]⟩

/-- The SQL engine as the ad-hoc path sees it: `db.Query` for reads
(columns plus raw driver rows) and `db.Exec` for writes (rowsAffected,
lastInsertId). Arbitrary SQL text cannot be interpreted inside the model,
so the executor is parameterized over the engine. -/
structure SqlEngine where
  runQuery : String → Except String (List String × List (List GoValue))
  runExec : String → Except String (Int × Int)

/-- Response of POST /query. -/
inductive AdHocResult where
  | validationError (msg : String)
  | storageError (msg : String)
  | selectRes (columns : List String) (rows : List (List (String × GoValue)))
  | writeRes (rowsAffected lastInsertId : Int)
  deriving DecidableEq, Repr

/-- Outcome of the ad-hoc executor plus the statements it actually handed
to `db.Query` and to `db.Exec`. -/
structure AdHocOut where
  result : AdHocResult
  queried : List String
  execed : List String
  deriving Repr

/-- Model of `handleExecuteQuery` (server.go lines 559-632): reject blank input,
classify by the SELECT/WITH prefix of the trimmed uppercased text, then
either collect columns and normalized rows or execute as a write. -/
def handleExecuteQuery (eng : SqlEngine) (q : String) : AdHocOut :=
  if goTrim q = "" then ⟨.validationError "query cannot be empty", [], []⟩
  else
    let up := goToUpper (goTrim q)
    if goHasPrefix up "SELECT" || goHasPrefix up "WITH" then
      match eng.runQuery q with
      | .error e => ⟨.storageError e, [q], []⟩
      | .ok (cols, rows) =>
        ⟨.selectRes cols (rows.map (fun vs => cols.zip (vs.map normalizeValue))), [q], []⟩
    else
      match eng.runExec q with
      | .error e => ⟨.storageError e, [], [q]⟩
      | .ok (a, l) => ⟨.writeRes a l, [], [q]⟩

/-- Model of `getTableSchema` (server.go lines 469-479): the stored CREATE text. -/
def getTableSchema (db : DB) (table : String) : Except String String :=
  match lookupTable db table with
  | none => .error "schema not found"
  | some t => .ok t.schema

/-- Model of `formatSQLValue` (export.go lines 93-134), on the modelled values:
NULL literal, quoted text/blob with embedded single quotes doubled,
booleans as 1/0, integers in decimal. -/
def formatSQLValue : GoValue → String
  | .null => "NULL"
  | .text s => squote ++ goReplaceAll1 s squoteChar (squote ++ squote) ++ squote
  | .blob s => squote ++ goReplaceAll1 s squoteChar (squote ++ squote) ++ squote
  | .bool b => if b then "1" else "0"
  | .int n => toString n

/-- Go `row[col]`: a missing key reads as nil. -/
def recordGet (row : List (String × GoValue)) (col : String) : GoValue :=
  match row.find? (fun kv => kv.1 = col) with
  | none => .null
  | some kv => kv.2

/-- One INSERT line of the dump (export.go line 72). -/
def sqlInsertLine (table : String) (columns : List String)
    (row : List (String × GoValue)) : String :=
  "INSERT INTO " ++ QuoteIdentifier table
    ++ " (" ++ joinComma (columns.map QuoteIdentifier) ++ ")"
    ++ " VALUES (" ++ joinComma (columns.map (fun c => formatSQLValue (recordGet row c))) ++ ");\n"

/-- Model of `exportSQL` (export.go lines 48-79): schema, DELETE, then the INSERT
lines accumulated into the buffer in row order. -/
def exportSQL (db : DB) (table : String) : Except String String :=
  match getTableSchema db table with
  | .error e => .error e
  | .ok schema =>
    match fetchAllRows db table with
    | .error e => .error e
    | .ok (columns, rows) =>
      .ok (rows.foldl
        (fun buf row => buf ++ sqlInsertLine table columns row)
        (schema ++ ";\n" ++ "DELETE FROM " ++ QuoteIdentifier table ++ ";\n"))

theorem string_data_append (a b : String) : (a ++ b).data = a.data ++ b.data := rfl

theorem string_mk_data (a : String) : String.mk a.data = a := rfl

theorem replaceAllChar_id (c : Char) (rep : List Char) :
    ∀ l : List Char, (∀ x ∈ l, x ≠ c) → replaceAllChar c rep l = l := by
  intro l h
  induction l with
  | nil => rfl
  | cons x xs ih =>
    have hx : x ≠ c := h x (List.mem_cons_self x xs)
    simp only [replaceAllChar, if_neg hx]
    exact congrArg (x :: ·) (ih fun y hy => h y (List.mem_cons_of_mem x hy))

theorem isSafeChar_ne_dquote {c : Char} (h : isSafeChar c = true) : c ≠ dquoteChar := by
  intro he
  subst he
  exact absurd h (by decide)

theorem safe_ident_chars {s : String} (h : IsSafeIdentifier s = true) :
    s ≠ "" ∧ ∀ c ∈ s.data, isSafeChar c = true := by
  unfold IsSafeIdentifier at h
  by_cases he : s = ""
  · rw [if_pos he] at h; exact absurd h (by simp)
  · rw [if_neg he] at h
    exact ⟨he, fun c hc => List.all_eq_true.mp h c hc⟩

/-- Claim C1: `IsSafeIdentifier` accepts a name exactly when it is
non-empty and every character is a letter, digit, underscore or dot. -/
theorem claim_C1_validator_charset (s : String) :
    IsSafeIdentifier s = true ↔
      s ≠ "" ∧ ∀ c ∈ s.data,
        c = '_' ∨ c = '.' ∨ ('0' ≤ c ∧ c ≤ '9') ∨ ('A' ≤ c ∧ c ≤ 'Z') ∨ ('a' ≤ c ∧ c ≤ 'z') := by
  unfold IsSafeIdentifier
  by_cases he : s = ""
  · rw [if_pos he]
    simp [he]
  · rw [if_neg he]
    simp only [List.all_eq_true, isSafeChar, Bool.or_eq_true, decide_eq_true_eq,
      Bool.and_eq_true, ne_eq, he, not_false_iff, true_and]
    constructor
    · intro h c hc
      have := h c hc
      tauto
    · intro h c hc
      have := h c hc
      tauto

theorem quote_safe_eq {s : String} (h : IsSafeIdentifier s = true) :
    QuoteIdentifier s = dquote ++ s ++ dquote := by
  obtain ⟨-, hall⟩ := safe_ident_chars h
  have hid : goReplaceAll1 s dquoteChar (dquote ++ dquote) = s := by
    unfold goReplaceAll1
    rw [replaceAllChar_id dquoteChar (dquote ++ dquote).data s.data
      (fun c hc => isSafeChar_ne_dquote (hall c hc))]
  unfold QuoteIdentifier
  rw [hid]

/-- Claim C10: on validated names the quote-doubling replacement is the
identity, so `QuoteIdentifier` is plain double-quote wrapping, and it is
injective on validated names. -/
theorem claim_C10_quote_plain_injective (a b : String)
    (ha : IsSafeIdentifier a = true) (hb : IsSafeIdentifier b = true) :
    goReplaceAll1 a dquoteChar (dquote ++ dquote) = a ∧
    QuoteIdentifier a = dquote ++ a ++ dquote ∧
    (QuoteIdentifier a = QuoteIdentifier b → a = b) := by
  obtain ⟨-, hall⟩ := safe_ident_chars ha
  refine ⟨?_, quote_safe_eq ha, ?_⟩
  · unfold goReplaceAll1
    rw [replaceAllChar_id dquoteChar (dquote ++ dquote).data a.data
      (fun c hc => isSafeChar_ne_dquote (hall c hc))]
  · intro hq
    rw [quote_safe_eq ha, quote_safe_eq hb] at hq
    have hdata := congrArg String.data hq
    simp only [string_data_append, List.append_assoc] at hdata
    have h1 : a.data ++ dquote.data = b.data ++ dquote.data :=
      List.append_cancel_left hdata
    have h2 : a.data = b.data := List.append_cancel_right h1
    calc a = String.mk a.data := (string_mk_data a).symm
    _ = String.mk b.data := congrArg String.mk h2
    _ = b := string_mk_data b

/-- Witness for C10 at a concrete validated name pair. -/
theorem claim_C10_witness :
    IsSafeIdentifier "users" = true ∧
    QuoteIdentifier "users" = dquote ++ "users" ++ dquote := by
  refine ⟨by decide, ?_⟩
  exact (claim_C10_quote_plain_injective "users" "users" (by decide) (by decide)).2.1

/-- Claim C4: blank ad-hoc input is a validation error with no SQL
executed; otherwise the statement is read-only exactly when its trimmed,
uppercased form starts with SELECT or WITH, going to `db.Query` and a
Select-shaped result (columns plus normalized rows); every other statement
goes to `db.Exec` and yields a Write-shaped result. -/
theorem claim_C4_adhoc_classification (eng : SqlEngine) (q : String) :
    (goTrim q = "" →
      handleExecuteQuery eng q =
        ⟨.validationError "query cannot be empty", [], []⟩) ∧
    (goTrim q ≠ "" →
      (goHasPrefix (goToUpper (goTrim q)) "SELECT" || goHasPrefix (goToUpper (goTrim q)) "WITH") = true →
      (handleExecuteQuery eng q).queried = [q] ∧
      (handleExecuteQuery eng q).execed = [] ∧
      ∀ cols rows, eng.runQuery q = .ok (cols, rows) →
        (handleExecuteQuery eng q).result =
          .selectRes cols (rows.map (fun vs => cols.zip (vs.map normalizeValue)))) ∧
    (goTrim q ≠ "" →
      (goHasPrefix (goToUpper (goTrim q)) "SELECT" || goHasPrefix (goToUpper (goTrim q)) "WITH") = false →
      (handleExecuteQuery eng q).queried = [] ∧
      (handleExecuteQuery eng q).execed = [q] ∧
      ∀ a l, eng.runExec q = .ok (a, l) →
        (handleExecuteQuery eng q).result = .writeRes a l) := by
  refine ⟨fun he => ?_, fun hne hsel => ?_, fun hne hsel => ?_⟩
  · simp [handleExecuteQuery, he]
  · unfold handleExecuteQuery
    rw [if_neg hne, if_pos hsel]
    refine ⟨?_, ?_, fun cols rows hq => ?_⟩
    · cases hq : eng.runQuery q <;> simp [hq]
    · cases hq : eng.runQuery q <;> simp [hq]
    · simp [hq]
  · unfold handleExecuteQuery
    rw [if_neg hne, if_neg (by simp [hsel])]
    refine ⟨?_, ?_, fun a l hq => ?_⟩
    · cases hq : eng.runExec q <;> simp [hq]
    · cases hq : eng.runExec q <;> simp [hq]
    · simp [hq]

/-- Witness for C4: a blank query, a SELECT and a DROP against a concrete
engine. -/
theorem claim_C4_adhoc_witness :
    (handleExecuteQuery
        ⟨fun _ => .ok (["a"], [[GoValue.blob "x"]]), fun _ => .ok (2, 3)⟩ "  ").result
      = .validationError "query cannot be empty" ∧
    (handleExecuteQuery
        ⟨fun _ => .ok (["a"], [[GoValue.blob "x"]]), fun _ => .ok (2, 3)⟩ "select 1").result
      = .selectRes ["a"] [[("a", GoValue.text "x")]] ∧
    (handleExecuteQuery
        ⟨fun _ => .ok (["a"], [[GoValue.blob "x"]]), fun _ => .ok (2, 3)⟩ "DROP TABLE t").result
      = .writeRes 2 3 := by
  refine ⟨?_, ?_, ?_⟩
  · rw [(claim_C4_adhoc_classification
      ⟨fun _ => .ok (["a"], [[GoValue.blob "x"]]), fun _ => .ok (2, 3)⟩ "  ").1 (by decide)]
  · have h := ((claim_C4_adhoc_classification
      ⟨fun _ => .ok (["a"], [[GoValue.blob "x"]]), fun _ => .ok (2, 3)⟩ "select 1").2.1
      (by decide) (by decide)).2.2 ["a"] [[GoValue.blob "x"]] rfl
    rw [h]
    rfl
  · have h := ((claim_C4_adhoc_classification
      ⟨fun _ => .ok (["a"], [[GoValue.blob "x"]]), fun _ => .ok (2, 3)⟩ "DROP TABLE t").2.2
      (by decide) (by decide)).2.2 2 3 rfl
    rw [h]

theorem stripRowidKey_idem (p : List (String × GoValue)) :
    stripRowidKey (stripRowidKey p) = stripRowidKey p := by
  unfold stripRowidKey
  rw [List.filter_filter]
  simp

theorem storeTable_lookup_self :
    ∀ (db : DB) (name : String) (t : Table),
      lookupTable db name = some t → storeTable db name t = db := by
  intro db name t h
  induction db with
  | nil => rfl
  | cons hd rest ih =>
    obtain ⟨n, t0⟩ := hd
    by_cases he : n = name
    · unfold lookupTable at h
      rw [if_pos he] at h
      unfold storeTable
      rw [if_pos he]
      cases h
      rfl
    · unfold lookupTable at h
      rw [if_neg he] at h
      unfold storeTable
      rw [if_neg he]
      exact congrArg ((n, t0) :: ·) (ih h)

theorem map_update_no_match (g : Row → Row) (rid : Int) :
    ∀ rows : List Row, (∀ r ∈ rows, r.rowid ≠ rid) →
      rows.map (fun r => if r.rowid = rid then g r else r) = rows := by
  intro rows h
  induction rows with
  | nil => rfl
  | cons x xs ih =>
    simp only [List.map_cons]
    rw [if_neg (h x (List.mem_cons_self x xs))]
    exact congrArg (x :: ·) (ih fun r hr => h r (List.mem_cons_of_mem x hr))

theorem filter_keep_no_match (rid : Int) :
    ∀ rows : List Row, (∀ r ∈ rows, r.rowid ≠ rid) →
      rows.filter (fun r => ¬ r.rowid = rid) = rows := by
  intro rows h
  rw [List.filter_eq_self]
  intro r hr
  simpa using h r hr

theorem filter_match_nil (rid : Int) :
    ∀ rows : List Row, (∀ r ∈ rows, r.rowid ≠ rid) →
      rows.filter (fun r => r.rowid = rid) = [] := by
  intro rows h
  rw [List.filter_eq_nil_iff]
  intro r hr
  simpa using h r hr

theorem handleUpdateRow_strip (db : DB) (table rowidStr : String)
    (payload : List (String × GoValue)) :
    handleUpdateRow db table rowidStr payload
      = handleUpdateRow db table rowidStr (stripRowidKey payload) := by
  simp only [handleUpdateRow, stripRowidKey_idem]

theorem handleUpdateRow_good (db : DB) (table rowidStr : String) (rid : Int) (t : Table)
    (payload : List (String × GoValue))
    (htable : IsSafeIdentifier table = true)
    (hparse : parseGoInt64 rowidStr = some rid) (hpos : 0 < rid)
    (hne : stripRowidKey payload ≠ [])
    (hsafe : (stripRowidKey payload).all (fun kv => IsSafeIdentifier kv.1) = true)
    (hlook : lookupTable db table = some t)
    (hcols : (stripRowidKey payload).all (fun kv => (colIndex t.cols kv.1).isSome) = true) :
    handleUpdateRow db table rowidStr payload =
      ⟨if ((t.rows.filter (fun r => r.rowid = rid)).length : Int) = 0 then
          .error (.notFound "row not found")
        else .ok ((t.rows.filter (fun r => r.rowid = rid)).length : Int),
       storeTable db table
         { t with rows := t.rows.map (fun r =>
            if r.rowid = rid then setRowVals t.cols (stripRowidKey payload) r else r) },
       [buildUpdateQuery table ((stripRowidKey payload).map (fun kv => kv.1))]⟩ := by
  unfold handleUpdateRow
  rw [htable, hparse]
  simp only [Bool.true_eq_false, if_false]
  have hpos2 : ¬(rid ≤ 0) := by omega
  have hsafe2 : ¬(((stripRowidKey payload).all fun kv => IsSafeIdentifier kv.1) = false) := by
    rw [hsafe]
    decide
  rw [if_neg hpos2, if_neg hne, if_neg hsafe2, hlook]
  dsimp only
  unfold sqlUpdate
  have hcols2 : ¬(((stripRowidKey payload).all fun kv => (colIndex t.cols kv.1).isSome) = false) := by
    rw [hcols]
    decide
  rw [if_neg hcols2]
  dsimp only
  by_cases h0 : ((t.rows.filter (fun r => r.rowid = rid)).length : Int) = 0
  · rw [if_pos h0, if_pos h0]
  · rw [if_neg h0, if_neg h0]

theorem handleDeleteRow_good (db : DB) (table rowidStr : String) (rid : Int) (t : Table)
    (htable : IsSafeIdentifier table = true)
    (hparse : parseGoInt64 rowidStr = some rid) (hpos : 0 < rid)
    (hlook : lookupTable db table = some t) :
    handleDeleteRow db table rowidStr =
      ⟨if ((t.rows.filter (fun r => r.rowid = rid)).length : Int) = 0 then
          .error (.notFound "row not found")
        else .ok ((t.rows.filter (fun r => r.rowid = rid)).length : Int),
       storeTable db table { t with rows := t.rows.filter (fun r => ¬ r.rowid = rid) },
       [buildDeleteQuery table]⟩ := by
  unfold handleDeleteRow
  rw [htable, hparse]
  simp only [Bool.true_eq_false, if_false]
  have hpos2 : ¬(rid ≤ 0) := by omega
  rw [if_neg hpos2, hlook]
  dsimp only
  unfold sqlDelete
  dsimp only
  by_cases h0 : ((t.rows.filter (fun r => r.rowid = rid)).length : Int) = 0
  · rw [if_pos h0, if_pos h0]
  · rw [if_neg h0, if_neg h0]

/-- Claim C5: updating or deleting a positive rowid that matches no row of
a valid table yields NotFound (not a validation error) and leaves the
database — in particular the table's row count and contents — unchanged. -/
theorem claim_C5_notfound_leaves_state (db : DB) (table rowidStr : String) (rid : Int)
    (t : Table) (payload : List (String × GoValue))
    (htable : IsSafeIdentifier table = true)
    (hlook : lookupTable db table = some t)
    (hparse : parseGoInt64 rowidStr = some rid) (hpos : 0 < rid)
    (hmiss : ∀ r ∈ t.rows, r.rowid ≠ rid)
    (hne : stripRowidKey payload ≠ [])
    (hsafe : (stripRowidKey payload).all (fun kv => IsSafeIdentifier kv.1) = true)
    (hcols : (stripRowidKey payload).all (fun kv => (colIndex t.cols kv.1).isSome) = true) :
    (handleDeleteRow db table rowidStr).result = .error (.notFound "row not found") ∧
    (handleDeleteRow db table rowidStr).db = db ∧
    (handleUpdateRow db table rowidStr payload).result = .error (.notFound "row not found") ∧
    (handleUpdateRow db table rowidStr payload).db = db := by
  have hlen : ((t.rows.filter (fun r => r.rowid = rid)).length : Int) = 0 := by
    rw [filter_match_nil rid t.rows hmiss]
    rfl
  have hdel := handleDeleteRow_good db table rowidStr rid t htable hparse hpos hlook
  have hupd := handleUpdateRow_good db table rowidStr rid t payload
    htable hparse hpos hne hsafe hlook hcols
  refine ⟨?_, ?_, ?_, ?_⟩
  · rw [hdel]
    dsimp only
    rw [if_pos hlen]
  · rw [hdel]
    dsimp only
    rw [filter_keep_no_match rid t.rows hmiss]
    exact storeTable_lookup_self db table t hlook
  · rw [hupd]
    dsimp only
    rw [if_pos hlen]
  · rw [hupd]
    dsimp only
    rw [map_update_no_match (setRowVals t.cols (stripRowidKey payload)) rid t.rows hmiss]
    exact storeTable_lookup_self db table t hlook

/-- Witness for C5 at a concrete one-row table and the absent rowid 5. -/
theorem claim_C5_witness :
    (handleDeleteRow [("t", ⟨"CREATE TABLE t (a)", ["a"], [⟨1, [.int 10]⟩]⟩)] "t" "5").result
      = .error (.notFound "row not found") ∧
    (handleDeleteRow [("t", ⟨"CREATE TABLE t (a)", ["a"], [⟨1, [.int 10]⟩]⟩)] "t" "5").db
      = [("t", ⟨"CREATE TABLE t (a)", ["a"], [⟨1, [.int 10]⟩]⟩)] ∧
    (handleUpdateRow [("t", ⟨"CREATE TABLE t (a)", ["a"], [⟨1, [.int 10]⟩]⟩)] "t" "5"
        [("a", .text "x")]).result = .error (.notFound "row not found") ∧
    (handleUpdateRow [("t", ⟨"CREATE TABLE t (a)", ["a"], [⟨1, [.int 10]⟩]⟩)] "t" "5"
        [("a", .text "x")]).db = [("t", ⟨"CREATE TABLE t (a)", ["a"], [⟨1, [.int 10]⟩]⟩)] :=
  claim_C5_notfound_leaves_state
    [("t", ⟨"CREATE TABLE t (a)", ["a"], [⟨1, [.int 10]⟩]⟩)] "t" "5" 5
    ⟨"CREATE TABLE t (a)", ["a"], [⟨1, [.int 10]⟩]⟩ [("a", .text "x")]
    (by decide) (by decide) (by decide) (by decide) (by decide) (by decide)
    (by decide) (by decide)

/-- Claim C6: the update path first strips any `_rowid` key (so the handler
behaves exactly as if it had never been sent), then rejects an empty
remainder or an invalid remaining key with a validation error and no SQL,
and otherwise executes exactly the parameterized
`UPDATE <table> SET <k> = ?, ... WHERE rowid = ?` statement. -/
theorem claim_C6_update_payload (db : DB) (table rowidStr : String) (rid : Int)
    (payload : List (String × GoValue))
    (htable : IsSafeIdentifier table = true)
    (hparse : parseGoInt64 rowidStr = some rid) (hpos : 0 < rid) :
    handleUpdateRow db table rowidStr payload
      = handleUpdateRow db table rowidStr (stripRowidKey payload) ∧
    (stripRowidKey payload = [] →
      handleUpdateRow db table rowidStr payload
        = ⟨.error (.validation "no columns to update"), db, []⟩) ∧
    (stripRowidKey payload ≠ [] →
      (stripRowidKey payload).all (fun kv => IsSafeIdentifier kv.1) = false →
      handleUpdateRow db table rowidStr payload
        = ⟨.error (.validation "invalid column"), db, []⟩) ∧
    (stripRowidKey payload ≠ [] →
      (stripRowidKey payload).all (fun kv => IsSafeIdentifier kv.1) = true →
      (handleUpdateRow db table rowidStr payload).execs
        = [buildUpdateQuery table ((stripRowidKey payload).map (fun kv => kv.1))]) := by
  have hpos2 : ¬(rid ≤ 0) := by omega
  refine ⟨handleUpdateRow_strip db table rowidStr payload, fun hnil => ?_, fun hne hbad => ?_,
    fun hne hok => ?_⟩
  · unfold handleUpdateRow
    rw [htable, hparse]
    simp only [Bool.true_eq_false, if_false]
    rw [if_neg hpos2, if_pos hnil]
  · unfold handleUpdateRow
    rw [htable, hparse]
    simp only [Bool.true_eq_false, if_false]
    rw [if_neg hpos2, if_neg hne, if_pos hbad]
  · unfold handleUpdateRow
    rw [htable, hparse]
    simp only [Bool.true_eq_false, if_false]
    have hok2 : ¬(((stripRowidKey payload).all fun kv => IsSafeIdentifier kv.1) = false) := by
      rw [hok]
      decide
    rw [if_neg hpos2, if_neg hne, if_neg hok2]
    cases hl : lookupTable db table with
    | none => rfl
    | some t =>
      dsimp only
      cases hs : sqlUpdate t (stripRowidKey payload) rid with
      | error e => rfl
      | ok pr =>
        obtain ⟨t2, aff⟩ := pr
        dsimp only
        by_cases h0 : aff = 0
        · rw [if_pos h0]
        · rw [if_neg h0]

/-- Witness for C6: a payload whose `_rowid` key is dropped, an all-`_rowid`
payload that empties out, an invalid key, and the exact SQL text built. -/
theorem claim_C6_witness :
    handleUpdateRow [] "t" "7" [("_rowid", .int 7), ("a", .int 1)]
      = handleUpdateRow [] "t" "7" [("a", .int 1)] ∧
    handleUpdateRow [] "t" "7" [("_rowid", .int 7)]
      = ⟨.error (.validation "no columns to update"), [], []⟩ ∧
    handleUpdateRow [] "t" "7" [("_rowid", .int 7), ("b d", .int 1)]
      = ⟨.error (.validation "invalid column"), [], []⟩ ∧
    (handleUpdateRow [] "t" "7" [("_rowid", .int 7), ("a", .int 1)]).execs
      = [buildUpdateQuery "t" ["a"]] := by
  refine ⟨?_, ?_, ?_, ?_⟩
  · have h := (claim_C6_update_payload [] "t" "7" 7 [("_rowid", .int 7), ("a", .int 1)]
      (by decide) (by decide) (by decide)).1
    rw [h]
    rfl
  · exact (claim_C6_update_payload [] "t" "7" 7 [("_rowid", .int 7)]
      (by decide) (by decide) (by decide)).2.1 (by decide)
  · exact (claim_C6_update_payload [] "t" "7" 7 [("_rowid", .int 7), ("b d", .int 1)]
      (by decide) (by decide) (by decide)).2.2.1 (by decide) (by decide)
  · have h := (claim_C6_update_payload [] "t" "7" 7 [("_rowid", .int 7), ("a", .int 1)]
      (by decide) (by decide) (by decide)).2.2.2 (by decide) (by decide)
    rw [h]
    rfl

/-- Is the response one of the handler's own 400 validation errors? -/
def isValidationErr : Except ApiError Int → Bool
  | .error (.validation _) => true
  | _ => false

/-- Claim C7: for the mutations that read a rowid from the request (update
and delete), a non-numeric or non-positive rowid string makes the handler
fail with a validation error before any SQL is handed to the engine, and
the database is untouched. (Insert takes no rowid input at all, so the
claim is vacuous there.) -/
theorem claim_C7_rowid_validation (db : DB) (table rowidStr : String)
    (payload : List (String × GoValue))
    (hbad : ∀ rid, parseGoInt64 rowidStr = some rid → rid ≤ 0) :
    isValidationErr (handleUpdateRow db table rowidStr payload).result = true ∧
    (handleUpdateRow db table rowidStr payload).execs = [] ∧
    (handleUpdateRow db table rowidStr payload).db = db ∧
    isValidationErr (handleDeleteRow db table rowidStr).result = true ∧
    (handleDeleteRow db table rowidStr).execs = [] ∧
    (handleDeleteRow db table rowidStr).db = db := by
  unfold handleUpdateRow handleDeleteRow
  by_cases ht : IsSafeIdentifier table = false
  · rw [if_pos ht, if_pos ht]
    exact ⟨rfl, rfl, rfl, rfl, rfl, rfl⟩
  · rw [if_neg ht, if_neg ht]
    cases hp : parseGoInt64 rowidStr with
    | none => exact ⟨rfl, rfl, rfl, rfl, rfl, rfl⟩
    | some rid =>
      dsimp only
      rw [if_pos (hbad rid hp), if_pos (hbad rid hp)]
      exact ⟨rfl, rfl, rfl, rfl, rfl, rfl⟩

/-- Witness for C7 at the non-numeric rowid "abc" and the non-positive
rowid "0". -/
theorem claim_C7_witness :
    isValidationErr (handleUpdateRow [] "t" "abc" [("a", .int 1)]).result = true ∧
    (handleUpdateRow [] "t" "abc" [("a", .int 1)]).execs = [] ∧
    isValidationErr (handleDeleteRow [] "t" "0").result = true ∧
    (handleDeleteRow [] "t" "0").execs = [] := by
  have h1 := claim_C7_rowid_validation [] "t" "abc" [("a", .int 1)]
    (by intro rid h; simp [parseGoInt64, parseDigitsAux, digitVal] at h)
  have h2 := claim_C7_rowid_validation [] "t" "0" [("a", .int 1)]
    (by
      intro rid h
      have : parseGoInt64 "0" = some 0 := by decide
      rw [this] at h
      cases h
      omega)
  exact ⟨h1.1, h1.2.1, h2.2.2.2.1, h2.2.2.2.2.1⟩

theorem charListLe_refl : ∀ l : List Char, charListLe l l = true := by
  intro l
  induction l with
  | nil => rfl
  | cons a as ih =>
    unfold charListLe
    rw [if_neg (lt_irrefl a), if_neg (lt_irrefl a)]
    exact ih

theorem valLe_text_refl (s : String) : valLe (.text s) (.text s) = true := by
  unfold valLe
  rw [if_neg (lt_irrefl _)]
  exact charListLe_refl s.data

theorem insertSorted_const (le : α → α → Bool) (h : ∀ a b, le a b = true) (x : α) :
    ∀ l, insertSorted le x l = x :: l := by
  intro l
  cases l with
  | nil => rfl
  | cons y ys =>
    unfold insertSorted
    rw [h x y]
    rfl

theorem sortByB_const (le : α → α → Bool) (h : ∀ a b, le a b = true) :
    ∀ l, sortByB le l = l := by
  intro l
  induction l with
  | nil => rfl
  | cons x xs ih =>
    unfold sortByB
    rw [ih, insertSorted_const le h x]

theorem applySort_constant (cols : List String) (orderBy dir : String) (rows : List Row)
    (h : resolveOrderBy cols orderBy = .constant orderBy) :
    applySort cols orderBy dir rows = rows := by
  unfold applySort
  rw [h]
  dsimp only
  by_cases hd : dir = "DESC"
  · rw [if_pos hd]
    exact sortByB_const _ (fun a b => valLe_text_refl orderBy) rows
  · rw [if_neg hd]
    exact sortByB_const _ (fun a b => valLe_text_refl orderBy) rows

instance instDecEqExcept {e a : Type} [DecidableEq e] [DecidableEq a] :
    DecidableEq (Except e a) := fun x y =>
  match x, y with
  | .error u, .error v =>
    if h : u = v then .isTrue (by rw [h]) else .isFalse (fun hc => h (by cases hc; rfl))
  | .ok u, .ok v =>
    if h : u = v then .isTrue (by rw [h]) else .isFalse (fun hc => h (by cases hc; rfl))
  | .error _, .ok _ => .isFalse (fun hc => Except.noConfusion hc)
  | .ok _, .error _ => .isFalse (fun hc => Except.noConfusion hc)

/-- Claim C3 (amended): a sort column that fails identifier validation, or
one that the engine resolves to neither a table column nor an implicit
rowid name (so SQLite's double-quoted-string fallback reads it as a
constant), leaves the fetch exactly as if no sort had been requested, and
the fetch succeeds. -/
theorem claim_C3_sort_fallback (db : DB) (table : String) (t : Table)
    (limitQ offsetQ : Int) (search orderBy orderDir : String)
    (htable : IsSafeIdentifier table = true)
    (hlook : lookupTable db table = some t)
    (hfall : IsSafeIdentifier orderBy = false ∨
      resolveOrderBy t.cols orderBy = .constant orderBy) :
    handleGetTableData db table limitQ offsetQ search orderBy orderDir
      = handleGetTableData db table limitQ offsetQ search "" orderDir ∧
    (handleGetTableData db table limitQ offsetQ search orderBy orderDir).isOk = true := by
  unfold handleGetTableData
  rw [htable]
  simp only [Bool.true_eq_false, if_false]
  rw [hlook]
  dsimp only
  have hnosort : ¬("" ≠ "" ∧ IsSafeIdentifier "" = true) := by simp
  rw [if_neg hnosort]
  cases hfall with
  | inl hbad =>
    have hno : ¬(orderBy ≠ "" ∧ IsSafeIdentifier orderBy = true) := by simp [hbad]
    rw [if_neg hno]
    exact ⟨rfl, rfl⟩
  | inr hconst =>
    by_cases hob : orderBy ≠ "" ∧ IsSafeIdentifier orderBy = true
    · rw [if_pos hob, applySort_constant t.cols orderBy _ _ hconst]
      exact ⟨rfl, rfl⟩
    · rw [if_neg hob]
      exact ⟨rfl, rfl⟩

/-- Counterexample to C3 as stated: `rowid` passes validation and is not a
column of the table (the claim calls this "unknown" and predicts a fetch
identical to the unsorted one), yet with direction DESC the code sorts by
the implicit row identifier and returns the rows reversed. -/
theorem claim_C3_counterexample :
    IsSafeIdentifier "rowid" = true ∧
    ¬("rowid" ∈ ["a"]) ∧
    handleGetTableData [("t", ⟨"CREATE TABLE t (a)", ["a"], [⟨1, [.int 10]⟩, ⟨2, [.int 20]⟩]⟩)]
        "t" 10 0 "" "rowid" "DESC"
      ≠ handleGetTableData [("t", ⟨"CREATE TABLE t (a)", ["a"], [⟨1, [.int 10]⟩, ⟨2, [.int 20]⟩]⟩)]
        "t" 10 0 "" "" "DESC" := by
  decide

/-- Witness for C3 (amended): an unsafe sort column and a safe-but-unresolvable
one both fall back to the unsorted fetch. -/
theorem claim_C3_witness :
    handleGetTableData [("t", ⟨"CREATE TABLE t (a)", ["a"], [⟨1, [.int 10]⟩]⟩)]
        "t" 10 0 "" "a;b" "ASC"
      = handleGetTableData [("t", ⟨"CREATE TABLE t (a)", ["a"], [⟨1, [.int 10]⟩]⟩)]
        "t" 10 0 "" "" "ASC" ∧
    handleGetTableData [("t", ⟨"CREATE TABLE t (a)", ["a"], [⟨1, [.int 10]⟩]⟩)]
        "t" 10 0 "" "zzz" "DESC"
      = handleGetTableData [("t", ⟨"CREATE TABLE t (a)", ["a"], [⟨1, [.int 10]⟩]⟩)]
        "t" 10 0 "" "" "DESC" ∧
    (handleGetTableData [("t", ⟨"CREATE TABLE t (a)", ["a"], [⟨1, [.int 10]⟩]⟩)]
        "t" 10 0 "" "zzz" "DESC").isOk = true := by
  refine ⟨?_, ?_, ?_⟩
  · exact (claim_C3_sort_fallback [("t", ⟨"CREATE TABLE t (a)", ["a"], [⟨1, [.int 10]⟩]⟩)]
      "t" ⟨"CREATE TABLE t (a)", ["a"], [⟨1, [.int 10]⟩]⟩ 10 0 "" "a;b" "ASC"
      (by decide) (by decide) (Or.inl (by decide))).1
  · exact (claim_C3_sort_fallback [("t", ⟨"CREATE TABLE t (a)", ["a"], [⟨1, [.int 10]⟩]⟩)]
      "t" ⟨"CREATE TABLE t (a)", ["a"], [⟨1, [.int 10]⟩]⟩ 10 0 "" "zzz" "DESC"
      (by decide) (by decide) (Or.inr (by decide))).1
  · exact (claim_C3_sort_fallback [("t", ⟨"CREATE TABLE t (a)", ["a"], [⟨1, [.int 10]⟩]⟩)]
      "t" ⟨"CREATE TABLE t (a)", ["a"], [⟨1, [.int 10]⟩]⟩ 10 0 "" "zzz" "DESC"
      (by decide) (by decide) (Or.inr (by decide))).2

/-- Claim C2 (amended): the paginated table fetch always selects the rowid
aliased as `_rowid` ahead of all table columns, but the export fetch that
all three encoders consume issues `SELECT *` with no alias: its column list
is exactly the table's own columns, so it contains `_rowid` only if the
table itself declares such a column. -/
theorem claim_C2_export_fetch_columns (db : DB) (table : String) (t : Table)
    (limitQ offsetQ : Int) (search orderBy orderDir : String)
    (htable : IsSafeIdentifier table = true)
    (hlook : lookupTable db table = some t) :
    (∀ res, handleGetTableData db table limitQ offsetQ search orderBy orderDir = .ok res →
      res.columns = "_rowid" :: t.cols) ∧
    fetchAllRows db table
      = .ok (t.cols, t.rows.map (fun r => t.cols.zip (r.vals.map normalizeValue))) ∧
    ("_rowid" ∉ t.cols → ∀ cols rows2,
      fetchAllRows db table = .ok (cols, rows2) → "_rowid" ∉ cols) := by
  have hfetch : fetchAllRows db table
      = .ok (t.cols, t.rows.map (fun r => t.cols.zip (r.vals.map normalizeValue))) := by
    unfold fetchAllRows
    rw [htable]
    simp only [Bool.true_eq_false, if_false]
    rw [hlook]
  refine ⟨fun res hres => ?_, hfetch, fun hnot cols rows2 h => ?_⟩
  · unfold handleGetTableData at hres
    rw [htable] at hres
    simp only [Bool.true_eq_false, if_false] at hres
    rw [hlook] at hres
    dsimp only at hres
    injection hres with h1
    rw [← h1]
  · rw [hfetch] at h
    injection h with h1
    have : cols = t.cols := congrArg Prod.fst h1.symm
    rw [this]
    exact hnot

/-- Counterexample to C2 as stated: on a concrete table the export fetch
succeeds with column list `["a"]`, which does not contain `_rowid`, while
the paginated fetch's column list does start with `_rowid`. -/
theorem claim_C2_counterexample :
    fetchAllRows [("t", ⟨"CREATE TABLE t (a)", ["a"], [⟨1, [.int 10]⟩]⟩)] "t"
      = .ok (["a"], [[("a", .int 10)]]) ∧
    ¬("_rowid" ∈ ["a"]) ∧
    handleGetTableData [("t", ⟨"CREATE TABLE t (a)", ["a"], [⟨1, [.int 10]⟩]⟩)]
        "t" 10 0 "" "" "ASC"
      = .ok ⟨["_rowid", "a"], [[("_rowid", .int 1), ("a", .int 10)]], 1, 10, 0⟩ := by
  decide

/-- Witness for C2 (amended) at a concrete database. -/
theorem claim_C2_witness :
    fetchAllRows [("t", ⟨"CREATE TABLE t (a)", ["a"], [⟨1, [.int 10]⟩]⟩)] "t"
      = .ok (["a"], [[("a", .int 10)]]) ∧
    ("_rowid" ∈ ["a"] → False) := by
  have h := claim_C2_export_fetch_columns
    [("t", ⟨"CREATE TABLE t (a)", ["a"], [⟨1, [.int 10]⟩]⟩)] "t"
    ⟨"CREATE TABLE t (a)", ["a"], [⟨1, [.int 10]⟩]⟩ 10 0 "" "" "ASC"
    (by decide) (by decide)
  exact ⟨h.2.1, fun hm =>
    h.2.2 (by decide) ["a"] [[("a", .int 10)]] h.2.1 hm⟩

/-- Concatenate the pages produced by `f` at page indices i, i+1, ..., i+k-1. -/
def pagesFrom (f : Nat → List α) (i : Nat) : Nat → List α
  | 0 => []
  | k+1 => f i ++ pagesFrom f (i+1) k

/-- Peel pages of length `L` off the front of a list, `k` times. -/
def pagesAux (L : Nat) : List α → Nat → List α
  | _, 0 => []
  | xs, k+1 => xs.take L ++ pagesAux L (xs.drop L) k

/-- The row list of a fetch, empty on error. -/
def resultRows : Except ApiError TableDataResult → List (List (String × GoValue))
  | .ok r => r.rows
  | .error _ => []

theorem pagesFrom_eq_pagesAux (L : Nat) (xs : List α) :
    ∀ k i, pagesFrom (fun j => (xs.drop (j * L)).take L) i k
      = pagesAux L (xs.drop (i * L)) k := by
  intro k
  induction k with
  | zero => intro i; rfl
  | succ k ih =>
    intro i
    show (xs.drop (i * L)).take L ++ pagesFrom (fun j => (xs.drop (j * L)).take L) (i + 1) k
      = (xs.drop (i * L)).take L ++ pagesAux L ((xs.drop (i * L)).drop L) k
    rw [ih (i + 1), List.drop_drop]
    have : (i + 1) * L = i * L + L := by ring
    rw [this]

theorem pagesAux_complete (L : Nat) :
    ∀ (k : Nat) (xs : List α), xs.length ≤ k * L → pagesAux L xs k = xs := by
  intro k
  induction k with
  | zero =>
    intro xs h
    rw [Nat.zero_mul, Nat.le_zero] at h
    rw [List.eq_nil_of_length_eq_zero h]
    rfl
  | succ k ih =>
    intro xs h
    show xs.take L ++ pagesAux L (xs.drop L) k = xs
    have hlen : (xs.drop L).length ≤ k * L := by
      rw [List.length_drop, Nat.sub_le_iff_le_add]
      rw [Nat.succ_mul] at h
      exact h
    rw [ih (xs.drop L) hlen]
    exact List.take_append_drop L xs

theorem handleGetTableData_page (db : DB) (table : String) (t : Table) (L o : Nat)
    (htable : IsSafeIdentifier table = true)
    (hlook : lookupTable db table = some t) (hL : 0 < L) :
    handleGetTableData db table (L : Int) (o : Int) "" "" "ASC" =
      .ok { columns := "_rowid" :: t.cols,
            rows := ((t.rows.drop o).take L).map (renderDataRow ("_rowid" :: t.cols)),
            total := (t.rows.length : Int),
            limit := (L : Int),
            offset := (o : Int) } := by
  unfold handleGetTableData
  rw [htable]
  simp only [Bool.true_eq_false, if_false]
  rw [hlook]
  dsimp only
  have h1 : ¬((L : Int) ≤ 0) := by
    have := Int.natCast_pos.mpr hL
    omega
  have h2 : ¬((o : Int) < 0) := by
    have := Int.natCast_nonneg o
    omega
  have h3 : ¬("" ≠ "" ∧ t.cols ≠ []) := by simp
  have h4 : ¬("" ≠ "" ∧ IsSafeIdentifier "" = true) := by simp
  rw [if_neg h1, if_neg h2, if_neg h3, if_neg h4]
  simp only [Int.toNat_natCast]

/-- Claim C8: with no search and no sort, fetching pages of size L at
offsets 0, L, 2L, ... and concatenating the returned row lists reproduces
the unfiltered, unpaginated read of the whole table — every row exactly
once, no duplicates, no gaps. -/
theorem claim_C8_pagination_complete (db : DB) (table : String) (t : Table) (L k : Nat)
    (htable : IsSafeIdentifier table = true)
    (hlook : lookupTable db table = some t)
    (hL : 0 < L) (hk : t.rows.length ≤ k * L) :
    pagesFrom (fun i =>
        resultRows (handleGetTableData db table (L : Int) ((i * L : Nat) : Int) "" "" "ASC"))
      0 k
      = t.rows.map (renderDataRow ("_rowid" :: t.cols)) ∧
    ∀ M : Nat, t.rows.length ≤ M → 0 < M →
      resultRows (handleGetTableData db table (M : Int) 0 "" "" "ASC")
        = t.rows.map (renderDataRow ("_rowid" :: t.cols)) := by
  constructor
  · have hpage : ∀ i : Nat,
        resultRows (handleGetTableData db table (L : Int) ((i * L : Nat) : Int) "" "" "ASC")
          = (((t.rows.map (renderDataRow ("_rowid" :: t.cols))).drop (i * L)).take L) := by
      intro i
      rw [handleGetTableData_page db table t L (i * L) htable hlook hL]
      show ((t.rows.drop (i * L)).take L).map (renderDataRow ("_rowid" :: t.cols)) = _
      rw [List.map_take, List.map_drop]
    simp only [hpage]
    rw [pagesFrom_eq_pagesAux L (t.rows.map (renderDataRow ("_rowid" :: t.cols))) k 0]
    rw [Nat.zero_mul, List.drop_zero]
    apply pagesAux_complete
    rw [List.length_map]
    exact hk
  · intro M hM hMpos
    have hpage0 := handleGetTableData_page db table t M 0 htable hlook hMpos
    rw [Nat.cast_zero] at hpage0
    rw [hpage0]
    show ((t.rows.drop 0).take M).map (renderDataRow ("_rowid" :: t.cols)) = _
    rw [List.drop_zero, List.take_of_length_le hM]

/-- Witness for C8: a three-row table read back in pages of two. -/
theorem claim_C8_witness :
    pagesFrom (fun i =>
        resultRows (handleGetTableData
          [("t", ⟨"CREATE TABLE t (a)", ["a"],
            [⟨1, [.int 10]⟩, ⟨2, [.int 20]⟩, ⟨3, [.int 30]⟩]⟩)]
          "t" ((2 : Nat) : Int) ((i * 2 : Nat) : Int) "" "" "ASC"))
      0 2
      = [[("_rowid", .int 1), ("a", .int 10)],
         [("_rowid", .int 2), ("a", .int 20)],
         [("_rowid", .int 3), ("a", .int 30)]] := by
  have h := (claim_C8_pagination_complete
    [("t", ⟨"CREATE TABLE t (a)", ["a"],
      [⟨1, [.int 10]⟩, ⟨2, [.int 20]⟩, ⟨3, [.int 30]⟩]⟩)]
    "t" ⟨"CREATE TABLE t (a)", ["a"],
      [⟨1, [.int 10]⟩, ⟨2, [.int 20]⟩, ⟨3, [.int 30]⟩]⟩ 2 2
    (by decide) (by decide) (by decide) (by decide)).1
  rw [h]
  rfl

theorem string_append_nil (a : String) : a ++ "" = a := by
  have : (a ++ "").data = a.data := by
    show a.data ++ [] = a.data
    exact List.append_nil a.data
  calc a ++ "" = String.mk ((a ++ "").data) := (string_mk_data (a ++ "")).symm
  _ = String.mk a.data := congrArg String.mk this
  _ = a := string_mk_data a

theorem string_append_assoc (a b c : String) : (a ++ b) ++ c = a ++ (b ++ c) := by
  calc (a ++ b) ++ c = String.mk ((a.data ++ b.data) ++ c.data) := rfl
  _ = String.mk (a.data ++ (b.data ++ c.data)) := congrArg String.mk (List.append_assoc _ _ _)
  _ = a ++ (b ++ c) := rfl

/-- Plain concatenation of a list of strings. -/
def concatStrings : List String → String
  | [] => ""
  | s :: rest => s ++ concatStrings rest

theorem foldl_append_eq_concat (g : β → String) :
    ∀ (rows : List β) (init : String),
      rows.foldl (fun buf row => buf ++ g row) init = init ++ concatStrings (rows.map g) := by
  intro rows
  induction rows with
  | nil => intro init; exact (string_append_nil init).symm
  | cons r rs ih =>
    intro init
    show rs.foldl (fun buf row => buf ++ g row) (init ++ g r)
      = init ++ (g r ++ concatStrings (rs.map g))
    rw [ih (init ++ g r), string_append_assoc]

/-- The spec's description of SQL-literal escaping: emit every character,
doubling each embedded single quote. -/
def escapeSquoteList : List Char → List Char
  | [] => []
  | c :: cs => (if c = squoteChar then [squoteChar, squoteChar] else [c]) ++ escapeSquoteList cs

def specEscapeSquote (s : String) : String :=
  ⟨escapeSquoteList s.data⟩

theorem replaceAllChar_squote_eq_escape :
    ∀ l : List Char, replaceAllChar squoteChar [squoteChar, squoteChar] l = escapeSquoteList l := by
  intro l
  induction l with
  | nil => rfl
  | cons c cs ih =>
    unfold replaceAllChar escapeSquoteList
    by_cases hc : c = squoteChar
    · rw [if_pos hc, if_pos hc, ih]
    · rw [if_neg hc, if_neg hc, ih]
      rfl

theorem goReplaceAll1_squote (s : String) :
    goReplaceAll1 s squoteChar (squote ++ squote) = specEscapeSquote s := by
  unfold goReplaceAll1 specEscapeSquote
  exact congrArg String.mk (replaceAllChar_squote_eq_escape s.data)

/-- Claim C9: the SQL export is exactly the table's CREATE statement, one
`DELETE FROM <table>`, then one parameterless INSERT per fetched row, and
the value literals double embedded single quotes, render booleans as 1/0,
NULL as the bare NULL literal, and text/blob values inside single quotes. -/
theorem claim_C9_export_sql (db : DB) (table : String) (t : Table)
    (htable : IsSafeIdentifier table = true)
    (hlook : lookupTable db table = some t) :
    exportSQL db table = .ok
      (t.schema ++ ";\n" ++ "DELETE FROM " ++ QuoteIdentifier table ++ ";\n"
        ++ concatStrings ((t.rows.map (fun r => t.cols.zip (r.vals.map normalizeValue))).map
            (sqlInsertLine table t.cols))) ∧
    formatSQLValue .null = "NULL" ∧
    (∀ b, formatSQLValue (.bool b) = if b then "1" else "0") ∧
    (∀ s, formatSQLValue (.text s) = squote ++ specEscapeSquote s ++ squote) ∧
    (∀ s, formatSQLValue (.blob s) = squote ++ specEscapeSquote s ++ squote) := by
  refine ⟨?_, rfl, fun b => rfl, fun s => ?_, fun s => ?_⟩
  · unfold exportSQL getTableSchema
    rw [hlook]
    dsimp only
    unfold fetchAllRows
    rw [htable]
    simp only [Bool.true_eq_false, if_false]
    rw [hlook]
    dsimp only
    rw [foldl_append_eq_concat]
  · show squote ++ goReplaceAll1 s squoteChar (squote ++ squote) ++ squote = _
    rw [goReplaceAll1_squote]
  · show squote ++ goReplaceAll1 s squoteChar (squote ++ squote) ++ squote = _
    rw [goReplaceAll1_squote]

/-- Witness for C9: a concrete two-row export, evaluated to the literal
dump text, plus the boolean rendering. -/
theorem claim_C9_witness :
    exportSQL [("t", ⟨"CREATE TABLE t (a)", ["a"], [⟨1, [.int 10]⟩, ⟨2, [.null]⟩]⟩)] "t"
      = .ok "CREATE TABLE t (a);\nDELETE FROM \"t\";\nINSERT INTO \"t\" (\"a\") VALUES (10);\nINSERT INTO \"t\" (\"a\") VALUES (NULL);\n" ∧
    formatSQLValue (.bool true) = "1" := by
  have h := claim_C9_export_sql
    [("t", ⟨"CREATE TABLE t (a)", ["a"], [⟨1, [.int 10]⟩, ⟨2, [.null]⟩]⟩)] "t"
    ⟨"CREATE TABLE t (a)", ["a"], [⟨1, [.int 10]⟩, ⟨2, [.null]⟩]⟩ (by decide) (by decide)
  refine ⟨?_, h.2.2.1 true⟩
  rw [h.1]
  rfl

/-- Witness for C1 at concrete accepted and rejected names. -/
theorem claim_C1_witness :
    IsSafeIdentifier "users_2.name" = true ∧
    IsSafeIdentifier "" = false ∧
    IsSafeIdentifier "a b" = false := by
  refine ⟨(claim_C1_validator_charset "users_2.name").mpr ⟨by decide, by decide⟩,
    by decide, by decide⟩
